import Mathlib

/-!
Verification of libssh's initialization/finalization core
(`src/init.c`) and the pthread threading backend
(`src/threads/pthread.c`, `src/threads/noop.c`).

The embedding is shallow: the global state touched by `_ssh_init` /
`_ssh_finalize` (`_ssh_initialized`, `_ssh_init_ret`) becomes an explicit
state record, the external collaborators (`ssh_threads_init`,
`ssh_crypto_init`, `ssh_socket_init` and their teardown counterparts) are
modelled by their return codes and by an event trace recording which
collaborator was invoked, in order.  C `int` is modelled as `Int`.
Locking (`SSH_STATIC_MUTEX_LOCK`/`UNLOCK`) only serializes the functions
and has no effect on the sequential semantics modelled here.
-/

namespace LibsshInit

/-- The observable collaborator invocations made by `_ssh_init` and
`_ssh_finalize`, in the order the C code can emit them. -/
inductive Event where
  | threads_init
  | crypto_init
  | socket_init
  | crypto_finalize
  | socket_cleanup
  | threads_finalize
deriving DecidableEq, Repr

/-- Return codes of the three bring-up collaborators, which are external
to this core (`ssh_threads_init`, `ssh_crypto_init`, `ssh_socket_init`);
0 means success, any nonzero value is a failure code. -/
structure Env where
  threads_rc : Int
  crypto_rc : Int
  socket_rc : Int
deriving DecidableEq, Repr

/-- The two static globals of `init.c`:
`static int _ssh_initialized` and `static int _ssh_init_ret`. -/
structure InitState where
  ssh_initialized : Int
  ssh_init_ret : Int
deriving DecidableEq, Repr

/-- Both globals are zero-initialized at process start. -/
def initialState : InitState := ⟨0, 0⟩

/-- `_ssh_init` from `init.c` (the `constructor` flag only elides the
static mutex and does not change the sequential behaviour).  Returns the
new global state, the returned `rc`, and the trace of collaborator calls.
The code increments `_ssh_initialized`; if it is now `> 1` it returns the
cached `_ssh_init_ret`; otherwise it runs `ssh_threads_init`,
`ssh_crypto_init`, `ssh_socket_init` in order, stopping at the first
nonzero `rc`; in every path `_ssh_init_ret = rc` is stored at `_ret`. -/
def ssh_init (env : Env) (s : InitState) : InitState × Int × List Event :=
  let n := s.ssh_initialized + 1
  if n > 1 then
    (⟨n, s.ssh_init_ret⟩, s.ssh_init_ret, [])
  else if env.threads_rc ≠ 0 then
    (⟨n, env.threads_rc⟩, env.threads_rc, [.threads_init])
  else if env.crypto_rc ≠ 0 then
    (⟨n, env.crypto_rc⟩, env.crypto_rc, [.threads_init, .crypto_init])
  else if env.socket_rc ≠ 0 then
    (⟨n, env.socket_rc⟩, env.socket_rc,
      [.threads_init, .crypto_init, .socket_init])
  else
    (⟨n, 0⟩, 0, [.threads_init, .crypto_init, .socket_init])

/-- `_ssh_finalize` from `init.c`.  If `_ssh_initialized == 1` it resets
the counter to 0 and, unless `_ssh_init_ret < 0`, calls
`ssh_crypto_finalize()`, then `ssh_socket_cleanup()`, then
`ssh_threads_finalize()` (in exactly that source order); otherwise it
decrements the counter if positive.  It always returns 0. -/
def ssh_finalize (s : InitState) : InitState × Int × List Event :=
  if s.ssh_initialized = 1 then
    if s.ssh_init_ret < 0 then
      (⟨0, s.ssh_init_ret⟩, 0, [])
    else
      (⟨0, s.ssh_init_ret⟩, 0,
        [.crypto_finalize, .socket_cleanup, .threads_finalize])
  else if s.ssh_initialized > 0 then
    (⟨s.ssh_initialized - 1, s.ssh_init_ret⟩, 0, [])
  else
    (s, 0, [])

/-- Run `n` consecutive `ssh_init` calls from a state, accumulating the
collaborator trace in call order. -/
def runInits (env : Env) : Nat → InitState → InitState × List Event
  | 0, s => (s, [])
  | n + 1, s =>
    let r := ssh_init env s
    let rest := runInits env n r.1
    (rest.1, r.2.2 ++ rest.2)

/-- Run `n` consecutive `ssh_finalize` calls from a state, accumulating
the collaborator trace in call order. -/
def runFinalizes : Nat → InitState → InitState × List Event
  | 0, s => (s, [])
  | n + 1, s =>
    let r := ssh_finalize s
    let rest := runFinalizes n r.1
    (rest.1, r.2.2 ++ rest.2)

/-- `n` `ssh_init` calls followed by `n` `ssh_finalize` calls, starting
from the process-start state. -/
def initFinalizeSeq (env : Env) (n : Nat) : InitState × List Event :=
  let up := runInits env n initialState
  let down := runFinalizes n up.1
  (down.1, up.2 ++ down.2)

end LibsshInit

namespace LibsshPthread

/-!
Model of `src/threads/pthread.c`.  Pointer-sized memory cells are a map
from addresses (`Nat`) to pointer values (`Nat`, with 0 playing the role
of `NULL`).  The raw pthread primitives (`pthread_mutexattr_init`,
`pthread_mutexattr_settype`, `malloc`, `pthread_mutex_init`,
`pthread_mutex_destroy`, `pthread_mutex_lock`, `pthread_mutex_unlock`)
are external: their outcomes are supplied by a `PthreadSys` record.
`exit(rc)` never returns, so each function yields a `CResult`.
For the lock/unlock/destroy paths the model additionally records the
address of the `pthread_mutex_t` object that the raw pthread operation
was applied to, since the claims are about which memory location the
backend operation acts on.
-/

/-- A pointer value / memory address; 0 stands for `NULL`. -/
abbrev Addr := Nat

/-- `EINVAL` on Linux. -/
def EINVAL : Int := 22

/-- `ENOMEM` on Linux. -/
def ENOMEM : Int := 12

/-- Memory of pointer-sized cells: `store a` is the pointer value held at
address `a` (0 = `NULL`). -/
structure Mem where
  store : Addr → Addr

/-- Write pointer value `v` into the cell at address `a`. -/
def Mem.write (m : Mem) (a v : Addr) : Mem :=
  ⟨fun x => if x = a then v else m.store x⟩

/-- Outcomes of the external primitives used by `pthread.c`:
return codes of the `pthread_*` calls and the result of `malloc`
(`none` = allocation failure, `some p` = fresh storage at address `p`).
The lock/unlock return codes depend on which mutex object address they
are applied to. -/
structure PthreadSys where
  mutexattr_init_rc : Int
  mutexattr_settype_rc : Int
  malloc_result : Option Addr
  mutex_init_rc : Int
  mutex_destroy_rc : Int
  mutex_lock_rc : Addr → Int
  mutex_unlock_rc : Addr → Int

/-- Result of a C function that may call `exit` (which does not return). -/
inductive CResult (α : Type) where
  | ret (a : α)
  | exited (code : Int)
deriving Repr, DecidableEq

/-- `ssh_pthread_mutex_init(void **mutex)`: `exit` on `mutexattr` setup
failures; `*mutex = malloc(...)`, returning `ENOMEM` when that yields
`NULL`; on `pthread_mutex_init` failure `free(*mutex); *mutex = NULL;`
and return its code; else return 0.  Argument `mutex` is the address of
the handle cell. -/
def ssh_pthread_mutex_init (sys : PthreadSys) (mutex : Addr) (m : Mem) :
    CResult (Int × Mem) :=
  if sys.mutexattr_init_rc ≠ 0 then .exited sys.mutexattr_init_rc
  else if sys.mutexattr_settype_rc ≠ 0 then .exited sys.mutexattr_settype_rc
  else
    match sys.malloc_result with
    | none => .ret (ENOMEM, m.write mutex 0)
    | some p =>
      let m1 := m.write mutex p
      if sys.mutex_init_rc ≠ 0 then .ret (sys.mutex_init_rc, m1.write mutex 0)
      else .ret (0, m1)

/-- `ssh_pthread_mutex_destroy(void **mutex)`: applies
`pthread_mutex_destroy` to `*mutex`, then `free(*mutex); *mutex = NULL;`
returns the destroy code.  Also yields the address the raw destroy was
applied to. -/
def ssh_pthread_mutex_destroy (sys : PthreadSys) (mutex : Addr) (m : Mem) :
    (Int × Mem) × List Addr :=
  ((sys.mutex_destroy_rc, m.write mutex 0), [m.store mutex])

/-- `ssh_pthread_mutex_lock(void **mutex)`: returns
`pthread_mutex_lock((pthread_mutex_t *)*mutex)`.  Also yields the address
the raw lock was applied to, namely the pointee `*mutex`. -/
def ssh_pthread_mutex_lock (sys : PthreadSys) (mutex : Addr) (m : Mem) :
    Int × List Addr :=
  (sys.mutex_lock_rc (m.store mutex), [m.store mutex])

/-- `ssh_pthread_mutex_unlock(void **mutex)`: returns
`pthread_mutex_unlock((pthread_mutex_t *)*mutex)`.  Also yields the
address the raw unlock was applied to. -/
def ssh_pthread_mutex_unlock (sys : PthreadSys) (mutex : Addr) (m : Mem) :
    Int × List Addr :=
  (sys.mutex_unlock_rc (m.store mutex), [m.store mutex])

/-- `ssh_static_mutex_init(void **mutex)`: `exit(EINVAL)` on a `NULL`
argument, `exit` on any `mutexattr` setup failure and on
`pthread_mutex_init` failure (the static storage is the argument itself,
reinterpreted; no heap is touched). -/
def ssh_static_mutex_init (sys : PthreadSys) (mutex : Option Addr) :
    CResult Unit :=
  match mutex with
  | none => .exited EINVAL
  | some _ =>
    if sys.mutexattr_init_rc ≠ 0 then .exited sys.mutexattr_init_rc
    else if sys.mutexattr_settype_rc ≠ 0 then .exited sys.mutexattr_settype_rc
    else if sys.mutex_init_rc ≠ 0 then .exited sys.mutex_init_rc
    else .ret ()

/-- `ssh_mutex_init(void **mutex)`: `exit(EINVAL)` on `NULL`, then
delegates to `ssh_pthread_mutex_init(mutex)` and `exit`s on any nonzero
return code.  `some a` is a non-`NULL` argument pointing at the handle
cell at address `a`. -/
def ssh_mutex_init (sys : PthreadSys) (mutex : Option Addr) (m : Mem) :
    CResult Mem :=
  match mutex with
  | none => .exited EINVAL
  | some a =>
    match ssh_pthread_mutex_init sys a m with
    | .exited c => .exited c
    | .ret (rc, m1) => if rc ≠ 0 then .exited rc else .ret m1

/-- `ssh_mutex_lock(void **mutex)`: `exit(EINVAL)` on `NULL`; otherwise
it calls `ssh_pthread_mutex_lock((void **)&mutex)` — the address of its
own parameter cell, not the argument value.  `localAddr` is the stack
address of that parameter cell; the model spills the argument value `a`
into it, as the C calling convention does, before taking its address.
`exit`s on a nonzero lock code.  Also yields the addresses raw
`pthread_mutex_lock` was applied to. -/
def ssh_mutex_lock (sys : PthreadSys) (mutex : Option Addr)
    (localAddr : Addr) (m : Mem) : CResult Unit × List Addr :=
  match mutex with
  | none => (.exited EINVAL, [])
  | some a =>
    let m1 := m.write localAddr a
    let r := ssh_pthread_mutex_lock sys localAddr m1
    (if r.1 ≠ 0 then .exited r.1 else .ret (), r.2)

/-- `ssh_mutex_unlock(void **mutex)`: same shape as `ssh_mutex_lock`,
delegating to `ssh_pthread_mutex_unlock((void **)&mutex)`. -/
def ssh_mutex_unlock (sys : PthreadSys) (mutex : Option Addr)
    (localAddr : Addr) (m : Mem) : CResult Unit × List Addr :=
  match mutex with
  | none => (.exited EINVAL, [])
  | some a =>
    let m1 := m.write localAddr a
    let r := ssh_pthread_mutex_unlock sys localAddr m1
    (if r.1 ≠ 0 then .exited r.1 else .ret (), r.2)

/-- `ssh_mutex_destroy(void **mutex)`: `exit(EINVAL)` on `NULL`, then
delegates to `ssh_pthread_mutex_destroy(mutex)` (the argument itself, so
the raw destroy acts on the pointee) and `exit`s on a nonzero code. -/
def ssh_mutex_destroy (sys : PthreadSys) (mutex : Option Addr) (m : Mem) :
    CResult Mem × List Addr :=
  match mutex with
  | none => (.exited EINVAL, [])
  | some a =>
    let r := ssh_pthread_mutex_destroy sys a m
    (if r.1.1 ≠ 0 then .exited r.1.1 else .ret r.1.2, r.2)

/-- A memory in which every cell holds `NULL`. -/
def mem0 : Mem := ⟨fun _ => 0⟩

/-- A concrete system in which every primitive succeeds and `malloc`
hands out storage at address 20. -/
def sysOk : PthreadSys :=
  ⟨0, 0, some 20, 0, 0, fun _ => 0, fun _ => 0⟩

/-- A concrete system in which `pthread_mutex_init` fails with code 5
(attribute setup and `malloc` succeed, storage at address 20). -/
def sysCtorFail : PthreadSys :=
  ⟨0, 0, some 20, 5, 0, fun _ => 0, fun _ => 0⟩

/-- A concrete system in which `malloc` fails (everything else
succeeds). -/
def sysMallocFail : PthreadSys :=
  ⟨0, 0, none, 0, 0, fun _ => 0, fun _ => 0⟩

end LibsshPthread

open LibsshInit LibsshPthread

/-- C4: on an init call that moves the counter from 0 to 1, bring-up runs
threads, then crypto, then sockets, each step only after the previous one
succeeded (in particular `socket_init` is never invoked when `crypto_init`
fails), and the value stored as the cached result and returned is 0 on
full success or the first nonzero failure code otherwise. -/
theorem init_first_call_bringup (env : Env) (s : InitState)
    (h : s.ssh_initialized = 0) :
    (ssh_init env s).1.ssh_initialized = 1 ∧
    (ssh_init env s).1.ssh_init_ret = (ssh_init env s).2.1 ∧
    (env.threads_rc ≠ 0 → (ssh_init env s).2.1 = env.threads_rc ∧
      (ssh_init env s).2.2 = [Event.threads_init]) ∧
    (env.threads_rc = 0 → env.crypto_rc ≠ 0 →
      (ssh_init env s).2.1 = env.crypto_rc ∧
      (ssh_init env s).2.2 = [Event.threads_init, Event.crypto_init]) ∧
    (env.threads_rc = 0 → env.crypto_rc = 0 → env.socket_rc ≠ 0 →
      (ssh_init env s).2.1 = env.socket_rc ∧
      (ssh_init env s).2.2 =
        [Event.threads_init, Event.crypto_init, Event.socket_init]) ∧
    (env.threads_rc = 0 → env.crypto_rc = 0 → env.socket_rc = 0 →
      (ssh_init env s).2.1 = 0 ∧
      (ssh_init env s).2.2 =
        [Event.threads_init, Event.crypto_init, Event.socket_init]) ∧
    (env.crypto_rc ≠ 0 → Event.socket_init ∉ (ssh_init env s).2.2) := by
  simp only [ssh_init, h]
  norm_num
  split_ifs with h1 h2 h3 <;> simp_all

/-- Witness for `init_first_call_bringup` at a concrete environment whose
crypto collaborator fails with code -1. -/
theorem init_first_call_bringup_witness :
    (⟨0, 0⟩ : InitState).ssh_initialized = 0 ∧
    (ssh_init ⟨0, -1, 0⟩ ⟨0, 0⟩).2.1 = -1 ∧
    (ssh_init ⟨0, -1, 0⟩ ⟨0, 0⟩).2.2 =
      [Event.threads_init, Event.crypto_init] := by
  have h := init_first_call_bringup ⟨0, -1, 0⟩ ⟨0, 0⟩ rfl
  exact ⟨rfl, (h.2.2.2.1 rfl (by decide)).1, (h.2.2.2.1 rfl (by decide)).2⟩

/-- C5: an init call made while the counter is already at least 1 only
increments the counter, performs no collaborator call, leaves the cached
result untouched and returns it. -/
theorem init_nested_call (env : Env) (s : InitState)
    (h : 1 ≤ s.ssh_initialized) :
    ssh_init env s =
      (⟨s.ssh_initialized + 1, s.ssh_init_ret⟩, s.ssh_init_ret, []) := by
  simp only [ssh_init]
  rw [if_pos (by omega)]

/-- Witness for `init_nested_call`: a second init call after a successful
first one returns the cached 0 and calls nothing. -/
theorem init_nested_call_witness :
    (1 : Int) ≤ (⟨1, 0⟩ : InitState).ssh_initialized ∧
    ssh_init ⟨0, 0, 0⟩ ⟨1, 0⟩ = (⟨2, 0⟩, 0, []) := by
  exact ⟨by decide, init_nested_call ⟨0, 0, 0⟩ ⟨1, 0⟩ (by decide)⟩

/-- C6: the counter never goes below 0 — both operations preserve
non-negativity — finalize returns success (0) from every state, and
finalize at counter 0 changes neither the counter nor the cached
result. -/
theorem finalize_floor (s : InitState) (h : 0 ≤ s.ssh_initialized) :
    (ssh_finalize s).2.1 = 0 ∧
    0 ≤ (ssh_finalize s).1.ssh_initialized ∧
    (∀ env, 0 ≤ (ssh_init env s).1.ssh_initialized) ∧
    (s.ssh_initialized = 0 → (ssh_finalize s).1 = s) := by
  refine ⟨?_, ?_, ?_, ?_⟩
  · simp only [ssh_finalize]
    split_ifs <;> rfl
  · simp only [ssh_finalize]
    split_ifs <;> simp <;> omega
  · intro env
    simp only [ssh_init]
    split_ifs <;> simp <;> omega
  · intro h0
    simp [ssh_finalize, h0]

/-- Witness for `finalize_floor` at the process-start state. -/
theorem finalize_floor_witness :
    (0 : Int) ≤ initialState.ssh_initialized ∧
    (ssh_finalize initialState).2.1 = 0 ∧
    (ssh_finalize initialState).1 = initialState := by
  have h := finalize_floor initialState (by decide)
  exact ⟨by decide, h.1, h.2.2.2 rfl⟩

/-- C1 (amended): a finalize call that brings the counter from 1 to 0
after a fully successful bring-up invokes the teardown collaborators in
the order crypto teardown, then socket cleanup, then thread-backend
teardown — not the exact reverse of bring-up order. -/
theorem finalize_teardown_order (s : InitState)
    (h1 : s.ssh_initialized = 1) (h0 : s.ssh_init_ret = 0) :
    ssh_finalize s = (⟨0, 0⟩, 0,
      [Event.crypto_finalize, Event.socket_cleanup,
       Event.threads_finalize]) := by
  simp [ssh_finalize, h1, h0]

/-- Witness for `finalize_teardown_order` at counter 1 with cached 0. -/
theorem finalize_teardown_order_witness :
    (⟨1, 0⟩ : InitState).ssh_initialized = 1 ∧
    ssh_finalize ⟨1, 0⟩ = (⟨0, 0⟩, 0,
      [Event.crypto_finalize, Event.socket_cleanup,
       Event.threads_finalize]) := by
  exact ⟨rfl, finalize_teardown_order ⟨1, 0⟩ rfl rfl⟩

/-- Counterexample to C1 as stated: after a fully successful bring-up
(counter 1, cached result 0) the teardown trace is
`crypto_finalize, socket_cleanup, threads_finalize`, not the claimed
`socket_cleanup, crypto_finalize, threads_finalize`. -/
theorem finalize_teardown_order_cex :
    (ssh_finalize ⟨1, 0⟩).2.2 =
      [Event.crypto_finalize, Event.socket_cleanup,
       Event.threads_finalize] ∧
    (ssh_finalize ⟨1, 0⟩).2.2 ≠
      [Event.socket_cleanup, Event.crypto_finalize,
       Event.threads_finalize] := by
  decide

/-- One-step unfolding of `runInits`. -/
theorem runInits_succ (env : Env) (n : Nat) (s : InitState) :
    runInits env (n + 1) s =
      ((runInits env n (ssh_init env s).1).1,
       (ssh_init env s).2.2 ++ (runInits env n (ssh_init env s).1).2) :=
  rfl

/-- One-step unfolding of `runFinalizes`. -/
theorem runFinalizes_succ (n : Nat) (s : InitState) :
    runFinalizes (n + 1) s =
      ((runFinalizes n (ssh_finalize s).1).1,
       (ssh_finalize s).2.2 ++ (runFinalizes n (ssh_finalize s).1).2) :=
  rfl

/-- Every init call past the first of an epoch leaves the cached result
in place and adds nothing to the trace, for any run length. -/
theorem runInits_stable (env : Env) (n : Nat) (k r : Int)
    (hk : 1 ≤ k) :
    runInits env n ⟨k, r⟩ = (⟨k + n, r⟩, []) := by
  induction n generalizing k with
  | zero => simp [runInits]
  | succ m ih =>
    have hstep : ssh_init env ⟨k, r⟩ = (⟨k + 1, r⟩, r, []) :=
      init_nested_call env ⟨k, r⟩ hk
    rw [runInits_succ, hstep]
    simp only [ih (k + 1) (by omega), List.nil_append, List.append_nil,
      Prod.mk.injEq, InitState.mk.injEq, and_true, true_and]
    push_cast
    ring

/-- Draining the counter from `m + 1` with `m + 1` finalize calls ends at
the zero state and performs exactly one teardown sequence. -/
theorem runFinalizes_drain (m : Nat) :
    runFinalizes (m + 1) ⟨(m : Int) + 1, 0⟩ =
      (⟨0, 0⟩, [Event.crypto_finalize, Event.socket_cleanup,
        Event.threads_finalize]) := by
  induction m with
  | zero =>
    simp only [runFinalizes, ssh_finalize]
    norm_num
  | succ k ih =>
    have hstep : ssh_finalize ⟨((k + 1 : Nat) : Int) + 1, 0⟩ =
        (⟨((k : Nat) : Int) + 1, 0⟩, 0, []) := by
      simp only [ssh_finalize]
      rw [if_neg (by push_cast; omega), if_pos (by push_cast; omega)]
      simp only [Prod.mk.injEq, InitState.mk.injEq, and_true, true_and]
      push_cast
      ring
    rw [runFinalizes_succ, hstep]
    simp [ih]

/-- C7 (amended): for every N ≥ 1, a sequence of N init calls followed by
N finalize calls in which no bring-up collaborator fails brings the
counter back to 0, and each of the three external collaborators is
invoked exactly once for bring-up and exactly once for teardown over the
whole sequence; for N = 0 the counter stays at 0 and no collaborator is
invoked at all. -/
theorem balance_invariant (env : Env) (n : Nat) (hn : 1 ≤ n)
    (ht : env.threads_rc = 0) (hc : env.crypto_rc = 0)
    (hs : env.socket_rc = 0) :
    (initFinalizeSeq env n).1.ssh_initialized = 0 ∧
    (initFinalizeSeq env n).2 =
      [Event.threads_init, Event.crypto_init, Event.socket_init,
       Event.crypto_finalize, Event.socket_cleanup,
       Event.threads_finalize] ∧
    (∀ e : Event, ((initFinalizeSeq env n).2.count e) = 1) := by
  obtain ⟨m, rfl⟩ : ∃ m, n = m + 1 := ⟨n - 1, by omega⟩
  have hfirst : ssh_init env initialState =
      (⟨1, 0⟩, 0, [Event.threads_init, Event.crypto_init,
        Event.socket_init]) := by
    simp [ssh_init, initialState, ht, hc, hs]
  have hup : runInits env (m + 1) initialState =
      (⟨(m : Int) + 1, 0⟩, [Event.threads_init, Event.crypto_init,
        Event.socket_init]) := by
    rw [runInits_succ, hfirst]
    simp only [runInits_stable env m 1 0 (by omega), List.append_nil,
      Prod.mk.injEq, InitState.mk.injEq, and_true, true_and]
    ring
  have hseq : initFinalizeSeq env (m + 1) =
      (⟨0, 0⟩, [Event.threads_init, Event.crypto_init, Event.socket_init,
        Event.crypto_finalize, Event.socket_cleanup,
        Event.threads_finalize]) := by
    simp only [initFinalizeSeq, hup, runFinalizes_drain m]
    rfl
  rw [hseq]
  refine ⟨rfl, rfl, ?_⟩
  intro e
  cases e <;> decide

/-- Witness for `balance_invariant` at N = 1 with all collaborators
succeeding. -/
theorem balance_invariant_witness :
    (1 ≤ 1 ∧ (⟨0, 0, 0⟩ : Env).threads_rc = 0) ∧
    (initFinalizeSeq ⟨0, 0, 0⟩ 1).1.ssh_initialized = 0 ∧
    (initFinalizeSeq ⟨0, 0, 0⟩ 1).2 =
      [Event.threads_init, Event.crypto_init, Event.socket_init,
       Event.crypto_finalize, Event.socket_cleanup,
       Event.threads_finalize] := by
  have h := balance_invariant ⟨0, 0, 0⟩ 1 (by decide) rfl rfl rfl
  exact ⟨⟨by decide, rfl⟩, h.1, h.2.1⟩

/-- Counterexample to C7 as stated for N = 0: the empty sequence invokes
no collaborator, so `threads_init` is not invoked exactly once. -/
theorem balance_invariant_cex :
    (initFinalizeSeq ⟨0, 0, 0⟩ 0).2 = [] ∧
    (initFinalizeSeq ⟨0, 0, 0⟩ 0).2.count Event.threads_init ≠ 1 := by
  decide

/-- C2 (amended): a finalize call at counter 1 whose epoch's cached
bring-up result is negative resets the counter to 0, invokes no teardown
collaborator, and returns success; a positive nonzero cached result does
not suppress teardown. -/
theorem finalize_failed_epoch_skips_teardown (s : InitState)
    (h1 : s.ssh_initialized = 1) (hneg : s.ssh_init_ret < 0) :
    ssh_finalize s = (⟨0, s.ssh_init_ret⟩, 0, []) := by
  simp [ssh_finalize, h1, hneg]

/-- Witness for `finalize_failed_epoch_skips_teardown` at cached -1. -/
theorem finalize_failed_epoch_skips_teardown_witness :
    (⟨1, -1⟩ : InitState).ssh_initialized = 1 ∧
    (⟨1, -1⟩ : InitState).ssh_init_ret < 0 ∧
    ssh_finalize ⟨1, -1⟩ = (⟨0, -1⟩, 0, []) := by
  exact ⟨rfl, by decide,
    finalize_failed_epoch_skips_teardown ⟨1, -1⟩ rfl (by decide)⟩

/-- Counterexample to C2 as stated: the cached failure code 1 is nonzero,
and reachable (a thread-backend bring-up failing with code 1 yields
counter 1 and cached result 1), yet finalize then runs the full teardown
instead of skipping it — the code only skips on a negative cached
result. -/
theorem finalize_failed_epoch_cex :
    (ssh_init ⟨1, 0, 0⟩ initialState).1 = ⟨1, 1⟩ ∧
    (⟨1, 1⟩ : InitState).ssh_init_ret ≠ 0 ∧
    (ssh_finalize ⟨1, 1⟩).2.2 =
      [Event.crypto_finalize, Event.socket_cleanup,
       Event.threads_finalize] := by
  decide

/-- C9: calling any of the four dynamic lock operations with a `NULL`
handle argument terminates the process with `EINVAL`; none of them
returns to the caller. -/
theorem null_handle_fatal (sys : PthreadSys) (m : Mem) (localAddr : Addr) :
    ssh_mutex_init sys none m = .exited EINVAL ∧
    (ssh_mutex_lock sys none localAddr m).1 = .exited EINVAL ∧
    (ssh_mutex_unlock sys none localAddr m).1 = .exited EINVAL ∧
    (ssh_mutex_destroy sys none m).1 = .exited EINVAL :=
  ⟨rfl, rfl, rfl, rfl⟩

/-- C10: when backend mutex creation fails the handle cell ends up
`NULL`: allocation failure yields `ENOMEM` with the pointee set to
`NULL` (the `malloc` result), and a `pthread_mutex_init` failure frees
the storage, resets the pointee to `NULL` and returns that failure
code. -/
theorem mutex_init_failure_nulls_handle (sys : PthreadSys) (a : Addr)
    (m : Mem) (h1 : sys.mutexattr_init_rc = 0)
    (h2 : sys.mutexattr_settype_rc = 0) :
    (sys.malloc_result = none →
      ssh_pthread_mutex_init sys a m = .ret (ENOMEM, m.write a 0) ∧
      (m.write a 0).store a = 0) ∧
    (∀ p, sys.malloc_result = some p → sys.mutex_init_rc ≠ 0 →
      ssh_pthread_mutex_init sys a m =
        .ret (sys.mutex_init_rc, (m.write a p).write a 0) ∧
      ((m.write a p).write a 0).store a = 0) := by
  constructor
  · intro hm
    refine ⟨?_, by simp [Mem.write]⟩
    simp [ssh_pthread_mutex_init, h1, h2, hm]
  · intro p hp hrc
    refine ⟨?_, by simp [Mem.write]⟩
    simp [ssh_pthread_mutex_init, h1, h2, hp, hrc]

/-- Witness for `mutex_init_failure_nulls_handle` on both failure paths,
at the handle cell address 10. -/
theorem mutex_init_failure_nulls_handle_witness :
    (ssh_pthread_mutex_init sysMallocFail 10 mem0 =
      .ret (ENOMEM, mem0.write 10 0) ∧
     (mem0.write 10 0).store 10 = 0) ∧
    (ssh_pthread_mutex_init sysCtorFail 10 mem0 =
      .ret (5, (mem0.write 10 20).write 10 0) ∧
     ((mem0.write 10 20).write 10 0).store 10 = 0) := by
  constructor
  · exact (mutex_init_failure_nulls_handle sysMallocFail 10 mem0
      rfl rfl).1 rfl
  · exact (mutex_init_failure_nulls_handle sysCtorFail 10 mem0
      rfl rfl).2 20 rfl (by decide)

/-- C8 (amended): mutex attribute setup failures terminate the process in
all three creation functions, and a `pthread_mutex_init` construction
failure terminates the process in `ssh_static_mutex_init` and in the
public dynamic `ssh_mutex_init`; but the backend callback
`ssh_pthread_mutex_init` itself returns the construction failure code to
its caller rather than terminating (its public wrapper converts that
return into termination). -/
theorem lock_creation_failure_fatality (sys : PthreadSys) (a : Addr)
    (m : Mem) :
    (sys.mutexattr_init_rc ≠ 0 →
      ssh_pthread_mutex_init sys a m = .exited sys.mutexattr_init_rc ∧
      ssh_static_mutex_init sys (some a) = .exited sys.mutexattr_init_rc ∧
      ssh_mutex_init sys (some a) m = .exited sys.mutexattr_init_rc) ∧
    (sys.mutexattr_init_rc = 0 → sys.mutexattr_settype_rc ≠ 0 →
      ssh_pthread_mutex_init sys a m = .exited sys.mutexattr_settype_rc ∧
      ssh_static_mutex_init sys (some a) =
        .exited sys.mutexattr_settype_rc ∧
      ssh_mutex_init sys (some a) m = .exited sys.mutexattr_settype_rc) ∧
    (sys.mutexattr_init_rc = 0 → sys.mutexattr_settype_rc = 0 →
      sys.mutex_init_rc ≠ 0 →
      ssh_static_mutex_init sys (some a) = .exited sys.mutex_init_rc ∧
      (∀ p, sys.malloc_result = some p →
        ssh_mutex_init sys (some a) m = .exited sys.mutex_init_rc) ∧
      (∀ p, sys.malloc_result = some p →
        ssh_pthread_mutex_init sys a m =
          .ret (sys.mutex_init_rc, (m.write a p).write a 0))) := by
  refine ⟨?_, ?_, ?_⟩
  · intro h1
    refine ⟨?_, ?_, ?_⟩
    · simp [ssh_pthread_mutex_init, h1]
    · simp [ssh_static_mutex_init, h1]
    · simp [ssh_mutex_init, ssh_pthread_mutex_init, h1]
  · intro h1 h2
    refine ⟨?_, ?_, ?_⟩
    · simp [ssh_pthread_mutex_init, h1, h2]
    · simp [ssh_static_mutex_init, h1, h2]
    · simp [ssh_mutex_init, ssh_pthread_mutex_init, h1, h2]
  · intro h1 h2 h3
    refine ⟨?_, ?_, ?_⟩
    · simp [ssh_static_mutex_init, h1, h2, h3]
    · intro p hp
      simp [ssh_mutex_init, ssh_pthread_mutex_init, h1, h2, h3, hp]
    · intro p hp
      simp [ssh_pthread_mutex_init, h1, h2, h3, hp]

/-- Witness for `lock_creation_failure_fatality` on the construction
failure path with failure code 5 and storage at address 20. -/
theorem lock_creation_failure_fatality_witness :
    ssh_static_mutex_init sysCtorFail (some 10) = .exited 5 ∧
    ssh_mutex_init sysCtorFail (some 10) mem0 = .exited 5 ∧
    ssh_pthread_mutex_init sysCtorFail 10 mem0 =
      .ret (5, (mem0.write 10 20).write 10 0) := by
  have h := (lock_creation_failure_fatality sysCtorFail 10 mem0).2.2
    rfl rfl (by decide)
  exact ⟨h.1, h.2.1 20 rfl, h.2.2 20 rfl⟩

/-- Counterexample to C8 as stated: in the native backend's creation
callback `ssh_pthread_mutex_init`, a `pthread_mutex_init` construction
failure (code 5) is returned to the caller as a status code instead of
terminating the process. -/
theorem lock_creation_failure_fatality_cex :
    ssh_pthread_mutex_init sysCtorFail 10 mem0 =
      .ret (5, (mem0.write 10 20).write 10 0) ∧
    sysCtorFail.mutex_init_rc = 5 := by
  exact ⟨rfl, rfl⟩

/-- C3 evaluated at a concrete failing input: `ssh_mutex_init` on the
handle cell at address 10 creates the backend lock storage at address 20
and stores 20 in the cell, and `ssh_mutex_destroy` applies the raw
destroy to that pointee (address 20); but `ssh_mutex_lock` and
`ssh_mutex_unlock` pass `(void **)&mutex` — the address of their own
parameter — so the raw lock/unlock is applied to the handle cell address
10 itself, not to the storage at 20 that init created and destroy
destroys. -/
theorem mutex_lock_wrong_location :
    ssh_mutex_init sysOk (some 10) mem0 = .ret (mem0.write 10 20) ∧
    (mem0.write 10 20).store 10 = 20 ∧
    (ssh_mutex_lock sysOk (some 10) 30 (mem0.write 10 20)).2 = [10] ∧
    (ssh_mutex_unlock sysOk (some 10) 30 (mem0.write 10 20)).2 = [10] ∧
    (ssh_mutex_destroy sysOk (some 10) (mem0.write 10 20)).2 = [20] ∧
    (10 : Addr) ≠ 20 :=
  ⟨rfl, rfl, rfl, rfl, rfl, by decide⟩
